import Mathlib

/-!
Shallow embedding of the session/role core of the repository:
- `SessionService` (src/unnamed/part_004): an in-memory store from session id to
  session record, with sliding-window expiry.
- `RoleService` (src/unnamed/part_005): configuration-backed role resolution with
  a bot > user > group > default precedence chain.
- The orchestration slice of `handleEvent` (src/services/line.service.js): session
  acquisition with role-change check, and the message appends of one text turn.

Conventions of the embedding:
- `Date.now()` is a `Nat` parameter `now` (milliseconds).
- `crypto.randomUUID()` is an explicit `newId : String` parameter (a freshness oracle).
- JS objects kept in the `Map` are embedded as a Lean structure; a dynamic property
  that no code path assigns is embedded as an `Option` field that stays `none`
  (reading a missing JS property yields `undefined`).
- A thrown `Error` is `Except.error` with the thrown message.
- The store itself is a function `String → Option Session`; `Map.set`, `Map.delete`
  and `Map.get` become pointwise update and application.
-/

namespace Shintek

/-- Embeds `this.sessionTimeout = 30 * 60 * 1000` (part_004, line 7). -/
def sessionTimeout : Nat := 30 * 60 * 1000

/-- One conversation turn `{ role, content }`. -/
structure Message where
  role : String
  content : String
deriving DecidableEq

/-- The session object created by `createSession` (part_004, lines 15-20).
The object literal has no `roleId` key; reading `session.roleId` in JS yields
`undefined`, embedded as the `Option` field `roleId` which `createSession`
leaves at `none`. -/
structure Session where
  id : String
  roleId : Option String
  messages : List Message
  createdAt : Nat
  lastAccessedAt : Nat
deriving DecidableEq

/-- Embeds `this.sessions : Map<string, session>`. -/
abbrev Store := String → Option Session

/-- Pointwise update, the effect of `Map.set` / `Map.delete`. -/
def Store.put (st : Store) (k : String) (v : Option Session) : Store :=
  fun k2 => if k2 = k then v else st k2

/-- A store with no entries. -/
def emptyStore : Store := fun _ => none

/-- Embeds `SessionService.createSession` (part_004, lines 13-24).
The JS method declares NO parameter, so the `roleIdArg` that the call site
`sessionService.createSession(roleConfig.roleId)` (line.service.js:136) passes is
discarded by JS call semantics; we keep it in the signature to model that call
site faithfully. The created session carries `roleId := none` because the object
literal at lines 15-20 contains no `roleId` key. -/
def createSession (sessions : Store) (roleIdArg : String) (newId : String) (now : Nat) :
    String × Store :=
  let _ := roleIdArg
  let session : Session :=
    { id := newId, roleId := none, messages := [], createdAt := now, lastAccessedAt := now }
  (newId, sessions.put newId (some session))

/-- Embeds `SessionService.getSession` (part_004, lines 29-45): returns `null` when the
entry is missing; deletes and returns `null` when `now - lastAccessedAt >
sessionTimeout` (strict); otherwise refreshes `lastAccessedAt` in place and
returns the session. -/
def getSession (sessions : Store) (sessionId : String) (now : Nat) :
    Option Session × Store :=
  match sessions sessionId with
  | none => (none, sessions)
  | some session =>
    if now - session.lastAccessedAt > sessionTimeout then
      (none, sessions.put sessionId none)
    else
      let refreshed := { session with lastAccessedAt := now }
      (some refreshed, sessions.put sessionId (some refreshed))

/-- Embeds `SessionService.updateSession` (part_004, lines 50-62): throws
`Error("Session not found or expired")` when `getSession` yields `null`,
otherwise bulk-replaces the message list and refreshes `lastAccessedAt`. -/
def updateSession (sessions : Store) (sessionId : String) (messages : List Message)
    (now : Nat) : Except String Session × Store :=
  match getSession sessions sessionId now with
  | (none, sessions1) => (Except.error "Session not found or expired", sessions1)
  | (some session, sessions1) =>
    let updated := { session with messages := messages, lastAccessedAt := now }
    (Except.ok updated, sessions1.put sessionId (some updated))

/-- Embeds `SessionService.addMessage` (part_004, lines 67-79): throws the same error when
the session is absent or expired, otherwise pushes `{ role, content }` and
refreshes `lastAccessedAt`. -/
def addMessage (sessions : Store) (sessionId : String) (role content : String)
    (now : Nat) : Except String Session × Store :=
  match getSession sessions sessionId now with
  | (none, sessions1) => (Except.error "Session not found or expired", sessions1)
  | (some session, sessions1) =>
    let updated := { session with
      messages := session.messages ++ [{ role := role, content := content }],
      lastAccessedAt := now }
    (Except.ok updated, sessions1.put sessionId (some updated))

/-- Embeds `SessionService.getMessages` (part_004, lines 84-92). -/
def getMessages (sessions : Store) (sessionId : String) (now : Nat) :
    Option (List Message) × Store :=
  match getSession sessions sessionId now with
  | (none, sessions1) => (none, sessions1)
  | (some session, sessions1) => (some session.messages, sessions1)

/-- Embeds `SessionService.deleteSession` (part_004, lines 97-99): plain `Map.delete`,
which returns whether an entry with that key was physically present, with no
expiry check. -/
def deleteSession (sessions : Store) (sessionId : String) : Bool × Store :=
  ((sessions sessionId).isSome, sessions.put sessionId none)

/-!
RoleService (src/unnamed/part_005). Every method begins with `loadConfig()`,
which re-reads the configuration file; the embedding takes the configuration as
an explicit value, so the reload is the identity (the state IS the file
content). `saveConfig()` writes the file back and returns `true` on success; the
embedding models a successful write.
-/

/-- One role profile, the value stored under `config.roles[roleId]`
(part_005, lines 24-33 show the shape). `systemPrompt` is flattened into its two
text fields. -/
structure RoleProfile where
  name : String
  description : String
  systemPromptUser : String
  systemPromptModel : String
  geminiModel : String
  stickerReplyText : String
deriving DecidableEq

/-- A JS object used as a string-to-string dictionary. -/
abbrev RoleMap := String → Option String

/-- The parsed configuration file (part_005, lines 22-39 give the shape).
The three mapping tables and the profile table are embedded as total functions
to `Option`; an absent table in JS behaves exactly like an empty one in every
method (each access is guarded by `this.config.X && ...`). -/
structure Config where
  roles : String → Option RoleProfile
  userRoleMapping : RoleMap
  groupRoleMapping : RoleMap
  botRoleMapping : RoleMap
  defaultRole : String

/-- JS truthiness of a possibly-absent string property: `undefined` and the
empty string are falsy, every other string is truthy. `truthyHit v` is `some r`
exactly when the JS condition `obj[key]` is truthy, with `r` the stored value. -/
def truthyHit : Option String → Option String
  | none => none
  | some r => if r = "" then none else some r

/-- Embeds `this.config.defaultRole || "customer-service"` (part_005, lines 83 and 99). -/
def Config.effectiveDefault (config : Config) : String :=
  if config.defaultRole = "" then "customer-service" else config.defaultRole

/-- The branch `botId && this.config.botRoleMapping && this.config.botRoleMapping[botId]`
(part_005, lines 70-72): `some r` when the bot branch fires with role `r`. -/
def botHit (config : Config) (botId : Option String) : Option String :=
  match botId with
  | none => none
  | some b => if b = "" then none else truthyHit (config.botRoleMapping b)

/-- The branch `this.config.userRoleMapping && this.config.userRoleMapping[userId]`
(part_005, lines 74-76). -/
def userHit (config : Config) (userId : String) : Option String :=
  truthyHit (config.userRoleMapping userId)

/-- The branch `groupId && this.config.groupRoleMapping && this.config.groupRoleMapping[groupId]`
(part_005, lines 78-80). -/
def groupHit (config : Config) (groupId : Option String) : Option String :=
  match groupId with
  | none => none
  | some g => if g = "" then none else truthyHit (config.groupRoleMapping g)

/-- The `roleId` selected by the precedence chain of `RoleService.getRoleForUser`
(part_005, lines 67-84): bot mapping, else user mapping, else group mapping,
else `defaultRole || "customer-service"`. -/
def resolvedRoleId (config : Config) (userId : String) (groupId botId : Option String) :
    String :=
  match botHit config botId with
  | some r => r
  | none =>
    match userHit config userId with
    | some r => r
    | none =>
      match groupHit config groupId with
      | some r => r
      | none => config.effectiveDefault

/-- The value returned by `getRoleConfig`: `{ roleId, ...roleConfig }`
(part_005, lines 103-106). When the (possibly re-pointed) `roleId` is itself
absent from `config.roles`, the JS spread of `undefined` yields an object with
only the `roleId` key, embedded as `profile := none`. -/
structure ResolvedRole where
  roleId : String
  profile : Option RoleProfile
deriving DecidableEq

/-- Embeds `RoleService.getRoleConfig` (part_005, lines 94-107): if `roleId` is not in
the profile table, re-point it at `defaultRole || "customer-service"` (with a
logged warning), then return `{ roleId, ...this.config.roles[roleId] }`.
It never throws. -/
def getRoleConfig (config : Config) (roleId : String) : ResolvedRole :=
  let roleId1 := if (config.roles roleId).isSome then roleId else config.effectiveDefault
  { roleId := roleId1, profile := config.roles roleId1 }

/-- Embeds `RoleService.getRoleForUser` (part_005, lines 64-87). -/
def getRoleForUser (config : Config) (userId : String) (groupId botId : Option String) :
    ResolvedRole :=
  getRoleConfig config (resolvedRoleId config userId groupId botId)

/-- The mapping purge inside `deleteRole` (part_005, lines 184-206):
`delete m[k]` for every key with `m[k] === roleId`. -/
def purgeRole (m : RoleMap) (roleId : String) : RoleMap :=
  fun k => if m k = some roleId then none else m k

/-- Embeds `RoleService.deleteRole` (part_005, lines 167-209): refuses the configured
default (before any mutation), then refuses an absent role, then removes the
profile and purges all three mapping tables and saves. -/
def deleteRole (config : Config) (roleId : String) : Bool × Config :=
  if roleId = config.defaultRole then (false, config)
  else if (config.roles roleId).isNone then (false, config)
  else
    (true,
      { roles := fun k => if k = roleId then none else config.roles k,
        userRoleMapping := purgeRole config.userRoleMapping roleId,
        groupRoleMapping := purgeRole config.groupRoleMapping roleId,
        botRoleMapping := purgeRole config.botRoleMapping roleId,
        defaultRole := config.defaultRole })

/-- Embeds `RoleService.removeBotRole` (part_005, lines 332-341): `false` when the bot
has no truthy mapping entry, otherwise delete the entry and save. -/
def removeBotRole (config : Config) (botId : String) : Bool × Config :=
  match truthyHit (config.botRoleMapping botId) with
  | none => (false, config)
  | some _ =>
    (true,
      { config with
        botRoleMapping := fun k => if k = botId then none else config.botRoleMapping k })

/-!
Orchestration slice of `handleEvent` (src/services/line.service.js).
`lineUserSessions : Map<userId, sessionId>` is the identity map owned by the
handler (line 61). The two relevant pieces of one text-message event are:

- session acquisition with the role-change check (lines 133-148), and
- the message appends around the AI call (lines 150-172).

The AI reply is taken as an oracle string `aiReply`; the two fresh UUIDs a single
event may consume are the oracle parameters `newId1`, `newId2`. All store
operations within one event observe the same `Date.now()` value `now`.
-/

/-- The identity map `lineUserSessions`. -/
abbrev IdMap := String → Option String

/-- Pointwise update of the identity map (`Map.set`). -/
def IdMap.put (m : IdMap) (k v : String) : IdMap :=
  fun k2 => if k2 = k then some v else m k2

/-- The mutable state the handler touches: the identity map and the session store. -/
structure LineState where
  lineUserSessions : IdMap
  sessions : Store

/-- Lines 133-148 of line.service.js: look up the session of the identity; create one
when the map misses (JS falsy: absent or empty id) or `getSession` returns
`null`; then fetch the session again and, when `session.roleId !== roleConfig.roleId`,
create a fresh session and re-point the identity map. The second fetch reads
`session.roleId` without a null check; the (unreachable at a single timestamp)
`null` case would throw a TypeError, embedded as `none`. Note the comparison is
between the stored `roleId` property (`Option String`, `none` for `undefined`)
and the resolved roleId string. -/
def acquireSession (st : LineState) (userId roleId : String) (newId1 newId2 : String)
    (now : Nat) : Option (String × LineState) :=
  let step1 : String × IdMap × Store :=
    match st.lineUserSessions userId with
    | none =>
      let (sid, store) := createSession st.sessions roleId newId1 now
      (sid, st.lineUserSessions.put userId sid, store)
    | some sid0 =>
      if sid0 = "" then
        let (sid, store) := createSession st.sessions roleId newId1 now
        (sid, st.lineUserSessions.put userId sid, store)
      else
        match getSession st.sessions sid0 now with
        | (none, store) =>
          let (sid, store2) := createSession store roleId newId1 now
          (sid, st.lineUserSessions.put userId sid, store2)
        | (some _, store) => (sid0, st.lineUserSessions, store)
  let (sid1, map1, store1) := step1
  match getSession store1 sid1 now with
  | (none, _) => none
  | (some session, store2) =>
    if session.roleId ≠ some roleId then
      let (sid2, store3) := createSession store2 roleId newId2 now
      some (sid2, { lineUserSessions := map1.put userId sid2, sessions := store3 })
    else
      some (sid1, { lineUserSessions := map1, sessions := store2 })

/-- The function `addMessage` viewed as a store transformer with JS exception propagation. -/
def addMessageE (sessions : Store) (sessionId role content : String) (now : Nat) :
    Except String Store :=
  match addMessage sessions sessionId role content now with
  | (Except.error e, _) => Except.error e
  | (Except.ok _, sessions1) => Except.ok sessions1

/-- Lines 150-172 of line.service.js: read the transcript (`messages.length` on a
`null` transcript would throw, embedded as an error); when it is empty, seed it
with `addMessage(sid, "user", systemPrompt.user)` and
`addMessage(sid, "model", systemPrompt.model)`; then append the user turn with
role `"user"` and, after the AI call, the reply with role `"model"`. -/
def appendConversationTurns (sessions : Store) (sessionId : String)
    (promptUser promptModel userMessage aiReply : String) (now : Nat) :
    Except String Store :=
  match getMessages sessions sessionId now with
  | (none, _) => Except.error "TypeError: messages is null"
  | (some messages, sessions1) =>
    let seeded : Except String Store :=
      if messages.length = 0 then
        match addMessageE sessions1 sessionId "user" promptUser now with
        | Except.error e => Except.error e
        | Except.ok s2 => addMessageE s2 sessionId "model" promptModel now
      else Except.ok sessions1
    match seeded with
    | Except.error e => Except.error e
    | Except.ok s2 =>
      match addMessageE s2 sessionId "user" userMessage now with
      | Except.error e => Except.error e
      | Except.ok s3 => addMessageE s3 sessionId "model" aiReply now

/-!
Concrete fixtures used by witnesses and counterexamples.
-/

/-- A session created at time 0 with an empty transcript (what `createSession`
builds). -/
def sessionAtZero : Session :=
  { id := "s1", roleId := none, messages := [], createdAt := 0, lastAccessedAt := 0 }

/-- A store holding exactly `sessionAtZero` under key `"s1"`. -/
def singletonStore : Store :=
  fun k => if k = "s1" then some sessionAtZero else none

/-- A role profile whose every text field is its name, for fixtures. -/
def profileOf (n : String) : RoleProfile :=
  { name := n, description := n, systemPromptUser := n, systemPromptModel := n,
    geminiModel := n, stickerReplyText := n }

/-- Fixture configuration: user `u1` mapped to role `A`, bot `bot1` mapped to
role `B`, profiles for `A`, `B` and the default present. -/
def cfg3 : Config :=
  { roles := fun r =>
      if r = "A" then some (profileOf "A")
      else if r = "B" then some (profileOf "B")
      else if r = "customer-service" then some (profileOf "customer-service")
      else none,
    userRoleMapping := fun u => if u = "u1" then some "A" else none,
    groupRoleMapping := fun _ => none,
    botRoleMapping := fun c => if c = "bot1" then some "B" else none,
    defaultRole := "customer-service" }

/-- Fixture configuration with a stale mapping: user `u1` mapped to role
`ghost`, which has no profile; only the default profile exists. -/
def cfgStale : Config :=
  { roles := fun r => if r = "customer-service" then some (profileOf "customer-service")
      else none,
    userRoleMapping := fun u => if u = "u1" then some "ghost" else none,
    groupRoleMapping := fun _ => none,
    botRoleMapping := fun _ => none,
    defaultRole := "customer-service" }

/-- Initial handler state: no identity mappings, no sessions. -/
def lineState0 : LineState :=
  { lineUserSessions := fun _ => none, sessions := emptyStore }

/-- First text-message event for user `user1` with resolved role
`customer-service` (fresh ids `sid-1`, `sid-2`, time 0). -/
def c2run1 : Option (String × LineState) :=
  acquireSession lineState0 "user1" "customer-service" "sid-1" "sid-2" 0

/-- The handler state after the first event. -/
def c2state1 : LineState := (c2run1.getD ("", lineState0)).2

/-- Second text-message event for the same user with the SAME resolved role
(fresh ids `sid-3`, `sid-4`, time 1000, well within the timeout). -/
def c2run2 : Option (String × LineState) :=
  acquireSession c2state1 "user1" "customer-service" "sid-3" "sid-4" 1000

/-- Store holding one freshly created session `s1` (roleId argument
`customer-service` passed and discarded, as at line.service.js:136). -/
def c8store0 : Store := (createSession emptyStore "customer-service" "s1" 0).2

/-- One full text turn handled against `c8store0`: seed pair, user turn, reply. -/
def c8run : Except String Store :=
  appendConversationTurns c8store0 "s1" "You are a support agent." "Understood." "hi"
    "hello" 0

/-- The store after `c8run` (its successful payload). -/
def c8store1 : Store :=
  match c8run with
  | Except.ok st => st
  | Except.error _ => emptyStore

/-!
Helper lemmas.
-/

theorem Store.put_same (st : Store) (k : String) (v : Option Session) :
    st.put k v k = v := by
  simp [Store.put]

theorem Store.put_other (st : Store) (k k2 : String) (v : Option Session)
    (h : k2 ≠ k) : st.put k v k2 = st k2 := by
  simp [Store.put, h]

theorem getMessages_snd (sessions : Store) (sid : String) (now : Nat) :
    (getMessages sessions sid now).2 = (getSession sessions sid now).2 := by
  unfold getMessages
  rcases h : getSession sessions sid now with ⟨o, st⟩
  cases o <;> rfl

theorem getSession_fst_messages (sessions : Store) (sid : String) (now : Nat)
    (s : Session) (h : (getSession sessions sid now).1 = some s) :
    ∃ s0, sessions sid = some s0 ∧ s.messages = s0.messages := by
  unfold getSession at h
  cases hc : sessions sid with
  | none => rw [hc] at h; simp at h
  | some s0 =>
    rw [hc] at h
    by_cases ht : now - s0.lastAccessedAt > sessionTimeout
    · simp [ht] at h
    · simp [ht] at h
      exact ⟨s0, rfl, by rw [← h]⟩

theorem getSession_snd_messages (sessions : Store) (sid : String) (now : Nat)
    (s : Session) (h : (getSession sessions sid now).2 sid = some s) :
    ∃ s0, sessions sid = some s0 ∧ s.messages = s0.messages := by
  unfold getSession at h
  cases hc : sessions sid with
  | none =>
    rw [hc] at h
    have h2 : sessions sid = some s := by simpa using h
    rw [hc] at h2
    exact absurd h2 (by simp)
  | some s0 =>
    rw [hc] at h
    by_cases ht : now - s0.lastAccessedAt > sessionTimeout
    · simp [ht, Store.put_same] at h
    · simp [ht, Store.put_same] at h
      exact ⟨s0, rfl, by rw [← h]⟩

theorem addMessageE_preserves (P : Message → Prop) (sessions st2 : Store)
    (sid role content : String) (now : Nat)
    (hok : ∀ s, sessions sid = some s → ∀ m ∈ s.messages, P m)
    (hrole : P (Message.mk role content))
    (hrun : addMessageE sessions sid role content now = Except.ok st2) :
    ∀ s, st2 sid = some s → ∀ m ∈ s.messages, P m := by
  unfold addMessageE addMessage at hrun
  rcases hp : getSession sessions sid now with ⟨opt, store1⟩
  rw [hp] at hrun
  cases opt with
  | none => simp at hrun
  | some sess =>
    simp only at hrun
    cases hrun
    intro s hs
    rw [Store.put_same] at hs
    cases hs
    intro m hm
    rcases List.mem_append.mp hm with h | h
    · obtain ⟨s0, hs0, hmsg⟩ := getSession_fst_messages sessions sid now sess
        (by rw [hp])
      rw [hmsg] at h
      exact hok s0 hs0 m h
    · rcases List.mem_singleton.mp h with rfl
      exact hrole

theorem appendConversationTurns_preserves (P : Message → Prop)
    (sessions st2 : Store) (sid pu pm um reply : String) (now : Nat)
    (hok : ∀ s, sessions sid = some s → ∀ m ∈ s.messages, P m)
    (hu : P (Message.mk "user" pu)) (hm : P (Message.mk "model" pm))
    (hum : P (Message.mk "user" um)) (hr : P (Message.mk "model" reply))
    (hrun : appendConversationTurns sessions sid pu pm um reply now = Except.ok st2) :
    ∀ s, st2 sid = some s → ∀ m ∈ s.messages, P m := by
  unfold appendConversationTurns at hrun
  rcases hg : getMessages sessions sid now with ⟨mopt, sessions1⟩
  rw [hg] at hrun
  cases mopt with
  | none => simp at hrun
  | some msgs =>
    simp only at hrun
    have hok1 : ∀ s, sessions1 sid = some s → ∀ m ∈ s.messages, P m := by
      intro s hs
      have hs1 : (getSession sessions sid now).2 sid = some s := by
        have h2 : (getMessages sessions sid now).2 = sessions1 := by rw [hg]
        rw [← getMessages_snd sessions sid now, h2]
        exact hs
      obtain ⟨s0, hs0, hmsg⟩ := getSession_snd_messages sessions sid now s hs1
      rw [hmsg]
      exact hok s0 hs0
    have hseed : ∀ stSeed,
        (if msgs.length = 0 then
          match addMessageE sessions1 sid "user" pu now with
          | Except.error e => Except.error e
          | Except.ok s2 => addMessageE s2 sid "model" pm now
        else Except.ok sessions1) = Except.ok stSeed →
        ∀ s, stSeed sid = some s → ∀ m ∈ s.messages, P m := by
      intro stSeed hSeed
      by_cases hl : msgs.length = 0
      · rw [if_pos hl] at hSeed
        rcases h1 : addMessageE sessions1 sid "user" pu now with e | s2
        · rw [h1] at hSeed; simp at hSeed
        · rw [h1] at hSeed
          simp only at hSeed
          exact addMessageE_preserves P s2 stSeed sid "model" pm now
            (addMessageE_preserves P sessions1 s2 sid "user" pu now hok1 hu h1)
            hm hSeed
      · rw [if_neg hl] at hSeed
        cases hSeed
        exact hok1
    rcases hS : (if msgs.length = 0 then
        match addMessageE sessions1 sid "user" pu now with
        | Except.error e => Except.error e
        | Except.ok s2 => addMessageE s2 sid "model" pm now
      else Except.ok sessions1) with e | stSeed
    · rw [hS] at hrun; simp at hrun
    · rw [hS] at hrun
      simp only at hrun
      rcases h3 : addMessageE stSeed sid "user" um now with e | s3
      · rw [h3] at hrun; simp at hrun
      · rw [h3] at hrun
        simp only at hrun
        exact addMessageE_preserves P s3 st2 sid "model" reply now
          (addMessageE_preserves P stSeed s3 sid "user" um now (hseed stSeed hS) hum h3)
          hr hrun

/-!
Claim theorems.
-/

/-- C1: the claim says `createSession` records the roleId passed to it and that
`getSession` then reports that roleId. Evaluating the code at the failing input
`createSession("r1")` (empty store, time 0): the session that `getSession`
returns carries NO roleId (the JS object has no such property, read as
`undefined`), not `"r1"`. -/
theorem c1_createSession_drops_roleId :
    (getSession (createSession emptyStore "r1" "sid-1" 0).2 "sid-1" 0).1
        = some { id := "sid-1", roleId := none, messages := [], createdAt := 0,
                 lastAccessedAt := 0 }
    ∧ (none : Option String) ≠ some "r1" := by
  constructor
  · rfl
  · decide

/-- C9: deleting the configured default role fails (the JS method returns
`false` with a logged error before touching anything) and leaves the whole
configuration — profile table, all three mapping tables, and the default role
id — unchanged. -/
theorem c9_deleteRole_default_fails (config : Config) :
    deleteRole config config.defaultRole = (false, config) := by
  simp [deleteRole]

/-- C9 witness: the theorem applied to the fixture configuration, whose
default role is `customer-service`. -/
theorem c9_deleteRole_default_fails_witness :
    deleteRole cfgStale "customer-service" = (false, cfgStale) :=
  c9_deleteRole_default_fails cfgStale

/-- C5 counterexample: the claim says a session with
`now - lastAccessedAt ≥ sessionTimeout` is treated as absent, but the code uses
a strict comparison: at exactly `now - lastAccessedAt = sessionTimeout` the
session is still returned. -/
theorem c5_counterexample_boundary_tick :
    sessionTimeout - sessionAtZero.lastAccessedAt ≥ sessionTimeout
    ∧ ((getSession singletonStore "s1" sessionTimeout).1).isSome = true := by
  constructor
  · decide
  · rfl

/-- C5 (amended): a session is valid only while
`now - lastAccessedAt ≤ sessionTimeout`; `getSession` treats it as absent
exactly when `now - lastAccessedAt` strictly exceeds `sessionTimeout`, even if
the entry is still physically present. -/
theorem c5_expiry_is_strict
    (sessions : Store) (sessionId : String) (now : Nat) (sess : Session)
    (hmem : sessions sessionId = some sess) :
    (now - sess.lastAccessedAt > sessionTimeout →
      (getSession sessions sessionId now).1 = none)
    ∧ (now - sess.lastAccessedAt ≤ sessionTimeout →
      ((getSession sessions sessionId now).1).isSome = true) := by
  constructor
  · intro h
    simp [getSession, hmem, h]
  · intro h
    simp [getSession, hmem, Nat.not_lt.mpr h]

/-- C5 witness: the amended theorem applied to a concrete store, one tick past
the boundary. -/
theorem c5_expiry_is_strict_witness :
    (getSession singletonStore "s1" (sessionTimeout + 1)).1 = none :=
  (c5_expiry_is_strict singletonStore "s1" (sessionTimeout + 1) sessionAtZero rfl).1
    (by decide)

/-- C10: `deleteSession` is plain physical removal, blind to expiry: on an
entry whose `lastAccessedAt` is more than `sessionTimeout` in the past (which
`getSession` reports as absent) it still returns `true` and removes the entry,
leaving other keys untouched; and in general it returns `false` exactly when no
entry with that id is physically present. -/
theorem c10_deleteSession_ignores_expiry
    (sessions : Store) (sessionId : String) (now : Nat) (sess : Session)
    (hmem : sessions sessionId = some sess)
    (hstale : now - sess.lastAccessedAt > sessionTimeout) :
    (getSession sessions sessionId now).1 = none
    ∧ (deleteSession sessions sessionId).1 = true
    ∧ (deleteSession sessions sessionId).2 sessionId = none
    ∧ (∀ k, k ≠ sessionId → (deleteSession sessions sessionId).2 k = sessions k)
    ∧ (∀ st2 : Store, ((deleteSession st2 sessionId).1 = false ↔ st2 sessionId = none)) := by
  refine ⟨?_, ?_, ?_, ?_, ?_⟩
  · simp [getSession, hmem, hstale]
  · simp [deleteSession, hmem]
  · simp [deleteSession, Store.put]
  · intro k hk
    simp [deleteSession, Store.put, hk]
  · intro st2
    cases h : st2 sessionId <;> simp [deleteSession, h]

/-- C2: the claim says the handler reuses the existing session when the freshly
resolved roleId equals the stored roleId of the session. Evaluating the code on two
consecutive text messages from `user1`, both resolving to role
`customer-service`: the first event ends on session `sid-2` (live, recorded in
the identity map), and the second event — same user, same resolved role, well
within the timeout — still creates and switches to a NEW session `sid-4`,
because the stored roleId is always `undefined` and therefore never equal to
the resolved roleId string. -/
theorem c2_handler_never_reuses_sessions :
    c2run1.map Prod.fst = some "sid-2"
    ∧ (c2run1.map fun r => r.2.lineUserSessions "user1") = some (some "sid-2")
    ∧ (c2state1.sessions "sid-2").isSome = true
    ∧ c2run2.map Prod.fst = some "sid-4"
    ∧ (c2run2.map fun r => r.2.lineUserSessions "user1") = some (some "sid-4") := by
  refine ⟨rfl, rfl, rfl, rfl, rfl⟩

/-- C6: sliding-window expiry. (a) once strictly more than `sessionTimeout`
elapses with no access, the session is unreachable: `getSession` and
`getMessages` report absent (and the entry is evicted), `addMessage` and
`updateSession` fail with the session-not-found error; (b) every successful
lookup sets `lastAccessedAt` to the current time; (c) a session accessed while
still valid stays reachable for a further full `sessionTimeout` window after
that access. -/
theorem c6_sliding_window_expiry
    (sessions : Store) (sessionId role content : String) (msgs : List Message)
    (t1 t2 : Nat) (sess : Session)
    (hmem : sessions sessionId = some sess) :
    (t1 - sess.lastAccessedAt > sessionTimeout →
        (getSession sessions sessionId t1).1 = none
        ∧ (getSession sessions sessionId t1).2 sessionId = none
        ∧ (getMessages sessions sessionId t1).1 = none
        ∧ (addMessage sessions sessionId role content t1).1
            = Except.error "Session not found or expired"
        ∧ (updateSession sessions sessionId msgs t1).1
            = Except.error "Session not found or expired")
    ∧ (∀ s2, (getSession sessions sessionId t1).1 = some s2 → s2.lastAccessedAt = t1)
    ∧ (t1 - sess.lastAccessedAt ≤ sessionTimeout → t2 - t1 ≤ sessionTimeout →
        ((getSession (getSession sessions sessionId t1).2 sessionId t2).1).isSome
          = true) := by
  refine ⟨?_, ?_, ?_⟩
  · intro h
    refine ⟨?_, ?_, ?_, ?_, ?_⟩ <;>
      simp [getSession, getMessages, addMessage, updateSession, hmem, h, Store.put]
  · intro s2 h2
    unfold getSession at h2
    rw [hmem] at h2
    by_cases hc : t1 - sess.lastAccessedAt > sessionTimeout
    · simp [hc] at h2
    · simp [hc] at h2
      subst h2
      rfl
  · intro h1 h2
    simp [getSession, hmem, Nat.not_lt.mpr h1, Store.put, Nat.not_lt.mpr h2]

/-- C6 witness: with a concrete session last accessed at time 0, one tick past
the timeout it is gone and `addMessage` fails; accessed at the last valid
instant, it is still reachable a full window later. -/
theorem c6_sliding_window_expiry_witness :
    (getSession singletonStore "s1" (sessionTimeout + 1)).1 = none
    ∧ (addMessage singletonStore "s1" "user" "hi" (sessionTimeout + 1)).1
        = Except.error "Session not found or expired"
    ∧ ((getSession (getSession singletonStore "s1" sessionTimeout).2 "s1"
          (sessionTimeout + sessionTimeout)).1).isSome = true := by
  have ha := c6_sliding_window_expiry singletonStore "s1" "user" "hi" []
    (sessionTimeout + 1) 0 sessionAtZero rfl
  have hc := c6_sliding_window_expiry singletonStore "s1" "user" "hi" []
    sessionTimeout (sessionTimeout + sessionTimeout) sessionAtZero rfl
  exact ⟨(ha.1 (by decide)).1, (ha.1 (by decide)).2.2.2.1,
    hc.2.2 (by decide) (by decide)⟩

/-- C7: on a live session, `addMessage` succeeds, and the transcript reported
by `getMessages` afterwards is the old transcript with exactly `{role, content}`
appended: length grows by one, the last element is the new turn, and the
turns already stored are unchanged and keep their order. -/
theorem c7_addMessage_appends_one_turn
    (sessions : Store) (sessionId role content : String) (now : Nat) (sess : Session)
    (hlive : (getSession sessions sessionId now).1 = some sess) :
    (addMessage sessions sessionId role content now).1
      = Except.ok { sess with
          messages := sess.messages ++ [Message.mk role content],
          lastAccessedAt := now }
    ∧ (getMessages (addMessage sessions sessionId role content now).2 sessionId now).1
        = some (sess.messages ++ [Message.mk role content])
    ∧ (sess.messages ++ [Message.mk role content]).length
        = sess.messages.length + 1
    ∧ (sess.messages ++ [Message.mk role content]).getLast?
        = some (Message.mk role content)
    ∧ (sess.messages ++ [Message.mk role content]).take
        sess.messages.length = sess.messages := by
  rcases hp : getSession sessions sessionId now with ⟨opt, store1⟩
  rw [hp] at hlive
  simp only at hlive
  subst hlive
  refine ⟨?_, ?_, ?_, ?_, ?_⟩
  · simp [addMessage, hp]
  · have hstore : (addMessage sessions sessionId role content now).2
        = store1.put sessionId (some { sess with
            messages := sess.messages ++ [Message.mk role content],
            lastAccessedAt := now }) := by
      simp [addMessage, hp]
    rw [hstore]
    simp [getMessages, getSession, Store.put, Nat.sub_self]
  · simp
  · exact List.getLast?_concat _
  · exact List.take_left _ _

/-- C7 witness: appending to a concrete live session. -/
theorem c7_addMessage_appends_one_turn_witness :
    (getMessages (addMessage singletonStore "s1" "user" "hi" 5).2 "s1" 5).1
      = some [{ role := "user", content := "hi" }] :=
  (c7_addMessage_appends_one_turn singletonStore "s1" "user" "hi" 5
    { sessionAtZero with lastAccessedAt := 5 } rfl).2.1

/-- C3: role-resolution precedence. With the channel (bot) mapped to `B` and
the user mapped to `A` (both truthy, both profiles present), resolution returns
`B`; after `removeBotRole` removes the channel mapping, it returns `A`. The
remaining conjuncts settle the rest of the chain: with no bot and no user
mapping a truthy group mapping wins, and with no mapping at all the configured
default is selected. -/
theorem c3_role_resolution_precedence
    (config : Config) (userId : String) (groupId : Option String) (b A B : String)
    (hb : b ≠ "") (hB : config.botRoleMapping b = some B) (hBne : B ≠ "")
    (hA : config.userRoleMapping userId = some A) (hAne : A ≠ "")
    (hrA : (config.roles A).isSome = true) (hrB : (config.roles B).isSome = true) :
    (getRoleForUser config userId groupId (some b)).roleId = B
    ∧ (getRoleForUser (removeBotRole config b).2 userId groupId (some b)).roleId = A
    ∧ (∀ (c : Config) (g C : String), c.botRoleMapping b = none →
        c.userRoleMapping userId = none → groupId = some g → g ≠ "" →
        c.groupRoleMapping g = some C → C ≠ "" → (c.roles C).isSome = true →
        (getRoleForUser c userId groupId (some b)).roleId = C)
    ∧ (∀ c : Config, c.botRoleMapping b = none → c.userRoleMapping userId = none →
        (∀ g, groupId = some g → c.groupRoleMapping g = none) →
        resolvedRoleId c userId groupId (some b) = c.effectiveDefault) := by
  refine ⟨?_, ?_, ?_, ?_⟩
  · have hres : resolvedRoleId config userId groupId (some b) = B := by
      simp [resolvedRoleId, botHit, truthyHit, hb, hB, hBne]
    simp [getRoleForUser, getRoleConfig, hres, hrB]
  · have hrm : (removeBotRole config b).2.botRoleMapping b = none := by
      simp [removeBotRole, truthyHit, hB, hBne]
    have hres : resolvedRoleId (removeBotRole config b).2 userId groupId (some b) = A := by
      have huser : (removeBotRole config b).2.userRoleMapping userId = some A := by
        simp [removeBotRole, truthyHit, hB, hBne, hA]
      simp [resolvedRoleId, botHit, userHit, truthyHit, hb, hrm, huser, hAne]
    have hroles : (removeBotRole config b).2.roles = config.roles := by
      simp [removeBotRole, truthyHit, hB, hBne]
    simp [getRoleForUser, getRoleConfig, hres, hroles, hrA]
  · intro c g C hcb hcu hg hgne hgC hCne hrC
    have hres : resolvedRoleId c userId groupId (some b) = C := by
      simp [resolvedRoleId, botHit, userHit, groupHit, truthyHit, hb, hcb, hcu, hg,
        hgne, hgC, hCne]
    simp [getRoleForUser, getRoleConfig, hres, hrC]
  · intro c hcb hcu hcg
    cases groupId with
    | none => simp [resolvedRoleId, botHit, userHit, groupHit, truthyHit, hb, hcb, hcu]
    | some g =>
      have hgn : c.groupRoleMapping g = none := hcg g rfl
      simp [resolvedRoleId, botHit, userHit, groupHit, truthyHit, hb, hcb, hcu, hgn]

/-- C3 witness: the fixture configuration `cfg3` (user `u1` mapped to `A`,
bot `bot1` mapped to `B`): resolution with both identities returns `B`, and
after removing the bot mapping it returns `A`. -/
theorem c3_role_resolution_precedence_witness :
    (getRoleForUser cfg3 "u1" none (some "bot1")).roleId = "B"
    ∧ (getRoleForUser (removeBotRole cfg3 "bot1").2 "u1" none (some "bot1")).roleId
        = "A" := by
  have h := c3_role_resolution_precedence cfg3 "u1" none "bot1" "A" "B"
    (by decide) rfl (by decide) rfl (by decide) rfl rfl
  exact ⟨h.1, h.2.1⟩

/-- C4: role resolution is total and degrades silently. `getRoleForUser` is a
total function of the configuration (the embedding returns a plain
`ResolvedRole`, mirroring that no code path throws), and whenever the roleId
selected by the precedence chain has no profile in the table — for example a
stale mapping left by an out-of-band edit — the returned value is the default
role and its profile. -/
theorem c4_resolution_total_silent_fallback
    (config : Config) (userId : String) (groupId botId : Option String)
    (p : RoleProfile)
    (hstale : config.roles (resolvedRoleId config userId groupId botId) = none)
    (hdef : config.roles config.effectiveDefault = some p) :
    getRoleForUser config userId groupId botId
      = { roleId := config.effectiveDefault, profile := some p } := by
  simp [getRoleForUser, getRoleConfig, hstale, hdef]

/-- C4 witness: the fixture `cfgStale`, whose user mapping points at the
deleted role `ghost`: resolution for `u1` returns the default profile. -/
theorem c4_resolution_total_silent_fallback_witness :
    getRoleForUser cfgStale "u1" none none
      = { roleId := "customer-service",
          profile := some (profileOf "customer-service") } :=
  c4_resolution_total_silent_fallback cfgStale "u1" none none
    (profileOf "customer-service") rfl rfl

/-- C8 counterexample: the claim says every stored turn has role `user` or
`assistant`. Running one full text turn against a freshly created session
stores the transcript seed pair, the user turn and the AI reply; the stored
AI-side turns carry role `model`, which is neither `user` nor `assistant`. -/
theorem c8_counterexample_model_role :
    (getMessages c8store1 "s1" 0).1
      = some [Message.mk "user" "You are a support agent.",
              Message.mk "model" "Understood.",
              Message.mk "user" "hi",
              Message.mk "model" "hello"]
    ∧ "model" ≠ "user" ∧ "model" ≠ "assistant" := by
  refine ⟨rfl, by decide, by decide⟩

/-- C8 (amended): every turn the orchestration layer stores — seed pair, user
turns and AI replies — has role `user` or `model` (the code tags AI turns with
the Gemini-convention role `model`, not `assistant`). Formally: if every
message of the session satisfies the role predicate before the event, every
message of the session after a successful text-turn handling satisfies it. -/
theorem c8_transcript_roles_user_or_model
    (sessions : Store) (sessionId pu pm um reply : String) (now : Nat)
    (st2 : Store) (sess : Session)
    (hmem : sessions sessionId = some sess)
    (hinv : ∀ m ∈ sess.messages, m.role = "user" ∨ m.role = "model")
    (hrun : appendConversationTurns sessions sessionId pu pm um reply now
      = Except.ok st2)
    (sess2 : Session) (hmem2 : st2 sessionId = some sess2) :
    ∀ m ∈ sess2.messages, m.role = "user" ∨ m.role = "model" := by
  have hok : ∀ s, sessions sessionId = some s →
      ∀ m ∈ s.messages, m.role = "user" ∨ m.role = "model" := by
    intro s hs
    rw [hmem] at hs
    cases hs
    exact hinv
  exact appendConversationTurns_preserves
    (fun m => m.role = "user" ∨ m.role = "model")
    sessions st2 sessionId pu pm um reply now hok
    (Or.inl rfl) (Or.inr rfl) (Or.inl rfl) (Or.inr rfl) hrun sess2 hmem2

/-- C8 witness: the amended theorem applied to the concrete run `c8run`,
instantiated at the stored reply turn. -/
theorem c8_transcript_roles_user_or_model_witness :
    (Message.mk "model" "hello").role = "user"
    ∨ (Message.mk "model" "hello").role = "model" :=
  c8_transcript_roles_user_or_model c8store0 "s1" "You are a support agent."
    "Understood." "hi" "hello" 0 c8store1
    { id := "s1", roleId := none, messages := [], createdAt := 0, lastAccessedAt := 0 }
    rfl (by simp) rfl
    { id := "s1", roleId := none,
      messages := [Message.mk "user" "You are a support agent.",
        Message.mk "model" "Understood.", Message.mk "user" "hi",
        Message.mk "model" "hello"],
      createdAt := 0, lastAccessedAt := 0 }
    rfl (Message.mk "model" "hello") (by decide)

/-- C10 witness: concrete expired entry, one tick past the timeout. -/
theorem c10_deleteSession_ignores_expiry_witness :
    (getSession singletonStore "s1" (sessionTimeout + 1)).1 = none
    ∧ (deleteSession singletonStore "s1").1 = true
    ∧ (deleteSession singletonStore "s1").2 "s1" = none := by
  have h := c10_deleteSession_ignores_expiry singletonStore "s1" (sessionTimeout + 1)
    sessionAtZero rfl (by decide)
  exact ⟨h.1, h.2.1, h.2.2.1⟩

end Shintek
